import Mathlib

/-!
Verification development for the Bruker LT corrector power-supply modbus
multiplexer driver (`modmux.py` of the BrukerALC_PS repository).

The Python module is embedded shallowly: 16-bit machine words are `Int`
with an explicit `% 65536` where the code truncates (`ctypes.c_uint16`),
nullable values (`None`) are `Option`, raised exceptions are an
`Option String` component of the result, hardware writes are recorded in
an explicit log, and modbus read responses are supplied by an explicit
oracle list of responses consumed in order.
-/

namespace Modmux

/-- Constant `CHANNEL_NUM = 12` from the source. -/
def CHANNEL_NUM : Nat := 12

/-- Constant `AOUT_WRITE_BASE = 576` from the source. -/
def AOUT_WRITE_BASE : Int := 576

/-- Constant `AOUT_PER_MODULE = 8` from the source. -/
def AOUT_PER_MODULE : Nat := 8

/-- Constant `AOUT_GROUP_PER_MODULE = 2` from the source. -/
def AOUT_GROUP_PER_MODULE : Int := 2

/-- Constant `AOUT_PER_GROUP = 4` from the source. -/
def AOUT_PER_GROUP : Nat := 4

/-- Constant `AOUT_MODULE_SIZE = 5` from the source. -/
def AOUT_MODULE_SIZE : Int := 5

/-- Constant `AOUT_MAX_VALUE = +32512` from the source. -/
def AOUT_MAX_VALUE : Int := 32512

/-- Constant `AOUT_MIN_VALUE = -32512` from the source. -/
def AOUT_MIN_VALUE : Int := -32512

/-- Constant `AOUT_GROUP_CODE = [0x100, 0x900]` from the source. -/
def AOUT_GROUP_CODE : List Int := [0x100, 0x900]

/-- Constant `AOUT_CONTROL_RECALL = 0x0200` from the source. -/
def AOUT_CONTROL_RECALL : Int := 0x0200

/-- Constant `AIN_WRITE_BASE = 586` from the source. -/
def AIN_WRITE_BASE : Int := 586

/-- Constant `AIN_READ_BASE = 202` from the source. -/
def AIN_READ_BASE : Int := 202

/-- Constant `AIN_MODULE_NUM = 3` from the source. -/
def AIN_MODULE_NUM : Nat := 3

/-- Constant `AIN_PER_MODULE_NUM = 8` from the source. -/
def AIN_PER_MODULE_NUM : Nat := 8

/-- Constant `AIN_TOTAL_NUM = 24` from the source
(`AIN_MODULE_NUM * AIN_PER_MODULE_NUM`). -/
def AIN_TOTAL_NUM : Nat := AIN_MODULE_NUM * AIN_PER_MODULE_NUM

/-- Constant `AIN_MODULE_SIZE = 2` from the source. -/
def AIN_MODULE_SIZE : Nat := 2

/-- Constant `AIN_TOTAL_SIZE = 6` from the source
(`AIN_MODULE_SIZE * AIN_MODULE_NUM`). -/
def AIN_TOTAL_SIZE : Nat := AIN_MODULE_SIZE * AIN_MODULE_NUM

/-- Constant `MASK_ERROR = 0x8000` from the source. -/
def MASK_ERROR : Int := 0x8000

/-- Constant `COIL_OUT = 0` from the source. -/
def COIL_OUT : Int := 0

/-- Constant `DIN_BASE = 0` from the source. -/
def DIN_BASE : Int := 0

/-- Constant `DEFAULT_ILIMIT = 25` from the source. -/
def DEFAULT_ILIMIT : Int := 25

/-- Pointwise update of a function `Nat → α`; embeds a Python list
element assignment `xs[i] = v` for the channel-indexed arrays. -/
def upd {α : Type} (f : Nat → α) (i : Nat) (v : α) : Nat → α :=
  fun j => if j = i then v else f j

/-- Helper for `everyNth`: keeps an element when the skip counter hits
zero and then resets it to `n - 1`. -/
def everyNthAux {α : Type} (n : Nat) : List α → Nat → List α
  | [], _ => []
  | a :: rest, 0 => a :: everyNthAux n rest (n - 1)
  | _ :: rest, k + 1 => everyNthAux n rest k

/-- Embeds the Python extended slice `l[::n]` (every `n`-th element,
starting with the first), for stride `n ≥ 1`. -/
def everyNth {α : Type} (l : List α) (n : Nat) : List α :=
  everyNthAux n l 0

/-- Embeds `ctrlword(groupidx, recall)`: looks up the control word that
selects the AOUT group `groupidx`, raising on an index outside
`[0, AOUT_GROUP_PER_MODULE)`.  (Python formats the index into the
message with `%d`; we use `toString`.) -/
def ctrlword (g : Int) (rc : Bool) : Except String Int :=
  if ¬ (0 ≤ g ∧ g < AOUT_GROUP_PER_MODULE) then
    Except.error ("invalid a-out group index " ++ toString g)
  else
    let a : Int := if g ≠ 0 then 0x0900 else 0x0100
    Except.ok (if rc then Int.lor a AOUT_CONTROL_RECALL else a)

/-- Embeds `groupidx(ctrlword)`: decodes a control word back to the
group it selects, raising on any other word.  (Python formats the word
with `%x`; we use `toString`.) -/
def groupidx (c : Int) : Except String Int :=
  if c = 0x0900 then Except.ok 1
  else if c = 0x0100 then Except.ok 0
  else Except.error ("ctrlword " ++ toString c ++ " does not select a group")

/-- Embeds the inner `uv` helper of `extract_ain_code`: interprets a raw
word as `ctypes.c_uint16` (i.e. mod 65536) and returns the fault code
`u ^ 0x8000` when `0x8000 < u < 0x8100`, otherwise `None`. -/
def uv (a : Option Int) : Option Int :=
  match a with
  | none => none
  | some x =>
    let u := x.emod 65536
    if 0x8000 < u ∧ u < 0x8100 then some (Int.xor u 0x8000) else none

/-- Embeds `extract_ain_code(ain_values)`: maps `uv` over the readings. -/
def extract_ain_code (l : List (Option Int)) : List (Option Int) :=
  l.map uv

/-- Embeds the `ERROR_MSG` table (Phoenix IB IL AI/8 SF fault bits); a
Python dict, modelled as an association list in source order. -/
def ERROR_MSG : List (Int × String) :=
  [ (0x01, "overrange"),
    (0x02, "open circuit"),
    (0x04, "invalid measure (channel configured?)"),
    (0x10, "I/O supply voltage failure"),
    (0x40, "faulty analog input module"),
    (0x80, "underrange") ]

/-- Embeds `error_str(code)`: `['ok']` for `None` or `0`, otherwise the
messages of the `ERROR_MSG` bits set in `code`. -/
def error_str (code : Option Int) : List String :=
  match code with
  | none => ["ok"]
  | some c =>
    if c = 0 then ["ok"]
    else (ERROR_MSG.filter (fun p => Int.land c p.1 ≠ 0)).map (fun p => p.2)

/-- Hardware operation issued to the modbus device: a
`PresetMultipleRegisters` call (argument list `[addr, count, w1, ...]`)
or a `ForceMultipleCoils` call. -/
inductive HwOp where
  | regs : List Int → HwOp
  | coils : List Int → HwOp
deriving DecidableEq

/-- Channel-multiplexer driver state: the mutable fields of the Python
`ModMux` object that the embedded operations read or write.  The
channel-indexed Python lists are total functions from the channel
index. -/
structure MM where
  st_on : Option Bool
  st_ready : Option Bool
  need_config : Bool
  name : Nat → String
  channel_on : Nat → Option Bool
  Izero : Nat → Option Int
  Ilimit : Nat → Option Int
  Iref : Nat → Option Int
  Imeas : Nat → Option Int
  Vmeas : Nat → Option Int
  Imeas_state : Nat → Option Int
  Vmeas_state : Nat → Option Int
  write_count : Nat
  read_repeat_count : Nat
  jiffies : Nat

/-- Initial driver state, embedding `ModMux.__init__`. -/
def mm0 : MM where
  st_on := none
  st_ready := none
  need_config := false
  name := fun ch => "channel " ++ toString ch
  channel_on := fun _ => none
  Izero := fun _ => some 0
  Ilimit := fun _ => some DEFAULT_ILIMIT
  Iref := fun _ => none
  Imeas := fun _ => none
  Vmeas := fun _ => none
  Imeas_state := fun _ => none
  Vmeas_state := fun _ => none
  write_count := 0
  read_repeat_count := 0
  jiffies := 0

/-- Embeds `ModMux._write(ch0)`: writes the whole 4-channel output group
of `ch0` in one burst.  For each channel of the group the value is
`Iref` when `channel_on` is truthy, else `Izero`; if any value is null a
`ModMuxException` is raised.  The source's second assert
(`ch_start <= ch0 < ch_end`) always holds and is omitted.  Note the
missing-channel names are looked up with the local `enumerate` index
`0..3`, exactly as the source does. -/
def MM.writeOut (s : MM) (ch0 : Nat) : MM × List HwOp × Option String :=
  if ch0 ≥ CHANNEL_NUM then
    (s, [], some "channel number must be between 0 and 12")
  else
    let s1 := { s with write_count := s.write_count + 1 }
    let modidx := ch0 / AOUT_PER_MODULE
    let aoutidx := ch0 % AOUT_PER_MODULE
    let gidx := aoutidx / AOUT_PER_GROUP
    let addr : Int := AOUT_WRITE_BASE + (modidx : Int) * AOUT_MODULE_SIZE
    let ch_start := modidx * AOUT_PER_MODULE + gidx * AOUT_PER_GROUP
    let val : Nat → Option Int := fun ch =>
      if s.channel_on ch = some true then s.Iref ch else s.Izero ch
    let values : List (Option Int) :=
      [val ch_start, val (ch_start + 1), val (ch_start + 2), val (ch_start + 3)]
    let missing : List String :=
      (([((0 : Nat), val ch_start), (1, val (ch_start + 1)),
         (2, val (ch_start + 2)), (3, val (ch_start + 3))].filter
        (fun p => decide (p.2 = none))).map (fun p => s.name p.1))
    if missing ≠ [] then
      (s1, [], some ("can not write " ++ s.name ch0 ++
        ", missing setpoints for " ++ String.intercalate ", " missing))
    else
      (s1, [HwOp.regs ([addr, 1 + (AOUT_PER_GROUP : Int),
        AOUT_GROUP_CODE.getD gidx 0] ++ values.map (fun v => v.getD 0))], none)

/-- Embeds `ModMux._power(flag)`: forces the master-power coil to
`int(bool(flag))`. -/
def MM.power (s : MM) (flag : Int) : MM × List HwOp × Option String :=
  (s, [HwOp.coils [COIL_OUT, 1, if flag ≠ 0 then 1 else 0]], none)

/-- Embeds `ModMux.poweron()`. -/
def MM.poweron (s : MM) : MM × List HwOp × Option String :=
  s.power 1

/-- Embeds `ModMux.switch_channel_off(ch0)`: performs the group write
first (with the channel's previous `channel_on` state still in place)
and only then marks the channel off. -/
def MM.switch_channel_off (s : MM) (ch0 : Nat) : MM × List HwOp × Option String :=
  match s.writeOut ch0 with
  | (s1, log, some e) => (s1, log, some e)
  | (s1, log, none) =>
    ({ s1 with channel_on := upd s1.channel_on ch0 (some false) }, log, none)

/-- Embeds `ModMux.switch_channel_on(ch0, force)`: guards on the
driver-wide power/ready flags (or powers on when forced), defaults a
null `Iref` to `Izero`, writes the group and finally marks the channel
on. -/
def MM.switch_channel_on (s : MM) (ch0 : Nat) (force : Bool) :
    MM × List HwOp × Option String :=
  let pre : MM × List HwOp × Option String :=
    if force then
      if s.st_on ≠ some true then s.poweron else (s, [], none)
    else if s.st_on ≠ some true then (s, [], some "power supply is off")
    else if s.st_ready ≠ some true then (s, [], some "power supply not ready")
    else (s, [], none)
  match pre with
  | (s1, log1, some e) => (s1, log1, some e)
  | (s1, log1, none) =>
    let s2 := if s1.Iref ch0 = none then
        { s1 with Iref := upd s1.Iref ch0 (s1.Izero ch0) }
      else s1
    match s2.writeOut ch0 with
    | (s3, log2, some e) => (s3, log1 ++ log2, some e)
    | (s3, log2, none) =>
      ({ s3 with channel_on := upd s3.channel_on ch0 (some true) },
        log1 ++ log2, none)

/-- Embeds `ModMux._write_all()`: `for ch in range(0, CHANNEL_NUM,
AOUT_PER_GROUP)` writes channels 0, 4 and 8, stopping at the first
raised exception. -/
def MM.write_all (s : MM) : MM × List HwOp × Option String :=
  match s.writeOut 0 with
  | (s1, l1, some e) => (s1, l1, some e)
  | (s1, l1, none) =>
    match s1.writeOut 4 with
    | (s2, l2, some e) => (s2, l1 ++ l2, some e)
    | (s2, l2, none) =>
      match s2.writeOut 8 with
      | (s3, l3, e) => (s3, l1 ++ l2 ++ l3, e)

/-- Embeds `ModMux.poweroff()`: marks every channel unknown, writes all
groups (which now carry the zero offsets) and then drops the power
coil. -/
def MM.poweroff (s : MM) : MM × List HwOp × Option String :=
  let s1 := { s with channel_on := fun _ => none }
  match s1.write_all with
  | (s2, l, some e) => (s2, l, some e)
  | (s2, l, none) =>
    match s2.power 0 with
    | (s3, l2, e) => (s3, l ++ l2, e)

/-- Embeds `ModMux.set_Iref(ch0, value)`: validates the range, records
the setpoint and, if the channel is on, writes its group. -/
def MM.set_Iref (s : MM) (ch0 : Nat) (value : Int) :
    MM × List HwOp × Option String :=
  if ¬ (AOUT_MIN_VALUE ≤ value ∧ value ≤ AOUT_MAX_VALUE) then
    (s, [], some "current setpoint out of allowed range")
  else
    let s1 := { s with Iref := upd s.Iref ch0 (some value) }
    if s1.channel_on ch0 = some true then s1.writeOut ch0
    else (s1, [], none)

/-- Embeds `ModMux.is_channel_on(ch)`: returns `False` whenever the
driver-wide `st_on` flag is not truthy; otherwise returns the cached
`channel_on` entry, inferring (and caching) it while still unknown. -/
def MM.is_channel_on (s : MM) (ch : Nat) : MM × Option Bool :=
  if s.st_on ≠ some true then (s, some false)
  else
    match s.channel_on ch with
    | some b => (s, some b)
    | none =>
      let o : Option Bool :=
        match s.Izero ch with
        | none => none
        | some z =>
          match s.Iref ch with
          | some r => some (decide (r ≠ z))
          | none =>
            match s.Imeas ch, s.Ilimit ch with
            | some m, some l => some (decide (|m - z| > l))
            | _, _ => none
      ({ s with channel_on := upd s.channel_on ch o }, o)

/-- The `AIN_CONTROL_CONFIG` words of the source repeated for the three
input modules: `[0x6000, AIN_CONFIG_OPTIONS] * AIN_MODULE_NUM` with
`AIN_CONFIG_OPTIONS = 0x1 | 0x000 | 0x3000 = 0x3001`. -/
def ain_cfg : List Int := [0x6000, 0x3001, 0x6000, 0x3001, 0x6000, 0x3001]

/-- Embeds `ModMux.configure()` with the two read-back responses
supplied explicitly: bursts the input and output configuration words
(`AOUT_CONTROL_CONFIG = 0x6001`), checks both read-backs and, on
success, marks every channel off (reconfiguring switches the outputs
off). -/
def MM.configure (s : MM) (r1 r2 : List Int) : MM × List HwOp × Option String :=
  let w1 := HwOp.regs ([AIN_WRITE_BASE, (AIN_TOTAL_SIZE : Int)] ++ ain_cfg)
  let cfg1 : List Int := [0x6001, 0, 0, 0, 0]
  let w2 := HwOp.regs ([AOUT_WRITE_BASE, 10] ++ cfg1 ++ cfg1)
  if r1 ≠ ain_cfg then
    (s, [w1, w2], some "failure to configure analog input module(s)")
  else if everyNth r2 5 ≠ [0x6001, 0x6001] then
    (s, [w1, w2], some "could not configure analog output module(s)")
  else
    ({ s with channel_on := fun _ => some false }, [w1, w2], none)

/-- Result of the status-poll loop of `read_AIN`: the measurement words
and repeat count once every status word matches, an abort on a fault
bit, or exhaustion of the supplied read responses (a read that never
returns).  (On the fault path the repeats observed so far are dropped,
as no claim concerns them.) -/
inductive PollOut where
  | ok : List Int → Nat → List (List Int) → PollOut
  | fault : PollOut
  | blocked : PollOut

/-- Status words of one read response: `data[::AIN_MODULE_SIZE]`. -/
def statusOf (data : List Int) : List Int := everyNth data AIN_MODULE_SIZE

/-- Measurement words of one read response: `data[1::AIN_MODULE_SIZE]`. -/
def measOf (data : List Int) : List Int := everyNth (data.drop 1) AIN_MODULE_SIZE

/-- Embeds the inner `while` loop of `read_AIN`: repeats the block read
(consuming successive oracle responses) until every status word equals
the selector `ch_code`, aborting when a status word carries the
`MASK_ERROR` bit. -/
def pollLoop (ch_code : Int) : List Int → List (List Int) → PollOut
  | data, oracle =>
    if (statusOf data).all (fun st => decide (st = ch_code)) then
      PollOut.ok (measOf data) 0 oracle
    else if (statusOf data).any (fun t => decide (Int.land t MASK_ERROR ≠ 0)) then
      PollOut.fault
    else
      match oracle with
      | [] => PollOut.blocked
      | d :: rest =>
        match pollLoop ch_code d rest with
        | PollOut.ok m n r => PollOut.ok m (n + 1) r
        | x => x

/-- Running state of the `read_AIN` scan: the flat result array, the
repeated-read counter, the selector writes issued so far, the remaining
read responses, the `need_config` flag and the early-return flags. -/
structure ScanState where
  aiva : List (Option Int)
  repeats : Nat
  writes : List HwOp
  oracle : List (List Int)
  need_config : Bool
  done : Bool
  blocked : Bool

/-- Embeds `aiva[ch0::AIN_PER_MODULE_NUM] = meas` for the three module
measurement words of one column (the transport returns exactly the
requested six words, so `meas` always has three elements). -/
def setSlice3 (aiva : List (Option Int)) (ch0 : Nat) (meas : List Int) :
    List (Option Int) :=
  match meas with
  | [m0, m1, m2] =>
    ((aiva.set ch0 (some m0)).set (ch0 + AIN_PER_MODULE_NUM) (some m1)).set
      (ch0 + 2 * AIN_PER_MODULE_NUM) (some m2)
  | _ => aiva

/-- Embeds one iteration of the `for ch0 in xrange(0, AIN_PER_MODULE_NUM)`
loop of `read_AIN`: bursts the selector word `ch0 * 0x100` to all three
input modules in a single write, then polls the read until the status
words match.  A fault bit sets `need_config` and returns early; an
exhausted oracle marks the scan blocked. -/
def scanColumn (st : ScanState) (ch0 : Nat) : ScanState :=
  if st.done then st
  else
    let ch_code : Int := (ch0 : Int) * 0x100
    let w := HwOp.regs [AIN_WRITE_BASE, (AIN_TOTAL_SIZE : Int),
      ch_code, 0, ch_code, 0, ch_code, 0]
    match st.oracle with
    | [] => { st with writes := st.writes ++ [w], done := true, blocked := true }
    | d :: rest =>
      match pollLoop ch_code d rest with
      | PollOut.ok meas n r =>
        { st with aiva := setSlice3 st.aiva ch0 meas,
                  repeats := st.repeats + n,
                  writes := st.writes ++ [w], oracle := r }
      | PollOut.fault =>
        { st with writes := st.writes ++ [w], need_config := true, done := true }
      | PollOut.blocked =>
        { st with writes := st.writes ++ [w], done := true, blocked := true }

/-- Embeds `ModMux.read_AIN()` against an explicit oracle of read
responses: scans the eight columns in order into a flat array of
`AIN_TOTAL_NUM` slots. -/
def MM.read_AIN (s : MM) (oracle : List (List Int)) : ScanState :=
  (List.range AIN_PER_MODULE_NUM).foldl scanColumn
    { aiva := List.replicate AIN_TOTAL_NUM none,
      repeats := 0, writes := [], oracle := oracle,
      need_config := s.need_config, done := false, blocked := false }

/-- Bit `k` of the digital-input status word.  Modelled from the spec:
`read_state` decodes bit 0 as `ready` and bit 1 as `powered`; the
`int2bin` helper it uses lives outside this repository. -/
def bitOf (w : Int) (k : Nat) : Bool := Int.testBit w k

/-- Embeds `ModMux.update()` with explicit read responses: runs
`configure` when flagged (clearing the flag on success), otherwise
scans the analog inputs, stores the voltage (first) and current
(second) halves with their fault codes, and decodes the ready/powered
bits from the digital-input word. -/
def MM.update (s : MM) (oracle : List (List Int)) (r1 r2 : List Int)
    (stateRead : List Int) : MM × List HwOp × Option String :=
  if s.need_config then
    match s.configure r1 r2 with
    | (s1, l, some e) => (s1, l, some e)
    | (s1, l, none) => ({ s1 with need_config := false }, l, none)
  else
    let sc := s.read_AIN oracle
    if sc.blocked then (s, sc.writes, some "communication failure")
    else
      let ain := sc.aiva
      ({ s with
          Imeas := fun i => ain.getD (CHANNEL_NUM + i) none,
          Imeas_state := fun i => uv (ain.getD (CHANNEL_NUM + i) none),
          Vmeas := fun i => ain.getD i none,
          Vmeas_state := fun i => uv (ain.getD i none),
          st_ready := some (bitOf (stateRead.getD 0 0) 0),
          st_on := some (bitOf (stateRead.getD 0 0) 1),
          need_config := sc.need_config,
          read_repeat_count := s.read_repeat_count + sc.repeats,
          jiffies := s.jiffies + 1 }, sc.writes, none)

/-- Setpoint range invariant: every non-null `Iref` entry lies in
`[AOUT_MIN_VALUE, AOUT_MAX_VALUE]`. -/
def Iref_in_range (s : MM) : Prop :=
  ∀ i v, s.Iref i = some v → AOUT_MIN_VALUE ≤ v ∧ v ≤ AOUT_MAX_VALUE

/-- Caller-supplied zero offsets within the writable range. -/
def Izero_in_range (s : MM) : Prop :=
  ∀ i v, s.Izero i = some v → AOUT_MIN_VALUE ≤ v ∧ v ≤ AOUT_MAX_VALUE

/-- `_write` leaves the driver state unchanged except for the write
counter. -/
theorem writeOut_fst (s : MM) (ch0 : Nat) :
    (s.writeOut ch0).1 = s ∨
    (s.writeOut ch0).1 = { s with write_count := s.write_count + 1 } := by
  by_cases hch : ch0 ≥ CHANNEL_NUM
  · left
    simp [MM.writeOut, hch]
  · right
    simp [MM.writeOut, hch, apply_ite Prod.fst]

/-- `_write` never touches the setpoints. -/
theorem writeOut_Iref {s : MM} {ch0 : Nat} {r : MM × List HwOp × Option String}
    (h : s.writeOut ch0 = r) : r.1.Iref = s.Iref := by
  subst h
  rcases writeOut_fst s ch0 with h2 | h2 <;> rw [h2]

/-- `_write` never touches the on/off cache. -/
theorem writeOut_channel_on {s : MM} {ch0 : Nat}
    {r : MM × List HwOp × Option String}
    (h : s.writeOut ch0 = r) : r.1.channel_on = s.channel_on := by
  subst h
  rcases writeOut_fst s ch0 with h2 | h2 <;> rw [h2]

/-- The range invariant only depends on the `Iref` field. -/
theorem Iref_in_range_of_eq {s s' : MM} (h : s'.Iref = s.Iref)
    (hs : Iref_in_range s) : Iref_in_range s' :=
  fun i v hv => hs i v (h ▸ hv)

/-- C7: `uv` (the decoder behind `extract_ain_code`) yields a non-null
fault code exactly when the unsigned 16-bit value of the word lies
strictly between 0x8000 and 0x8100; `0x8004` decodes to the
invalid-measurement bit `0x04` (whose `ERROR_MSG` entry is the
invalid-measure message), and `1234`, `0`, `-1` and `None` decode to no
fault. -/
theorem c7_decode_fault :
    (∀ w : Int, (uv (some w)).isSome ↔
      (0x8000 < w.emod 65536 ∧ w.emod 65536 < 0x8100)) ∧
    uv (some 0x8004) = some 0x04 ∧
    error_str (uv (some 0x8004)) = ["invalid measure (channel configured?)"] ∧
    uv (some 1234) = none ∧
    uv (some 0) = none ∧
    uv (some (-1)) = none ∧
    uv none = none := by
  refine ⟨?_, rfl, rfl, rfl, rfl, rfl, rfl⟩
  intro w
  by_cases h : 0x8000 < w.emod 65536 ∧ w.emod 65536 < 0x8100
  · simp [uv, h]
  · simp [uv, h]

/-- C8: group-select round trip: encoding group 1 (without recall) gives
control word 0x0900 and group 0 gives 0x0100; decoding maps these back,
so decode after encode is the identity on {0,1}; decoding any other
word errors, and encoding any index outside {0,1} errors. -/
theorem c8_roundtrip :
    ctrlword 1 false = Except.ok 0x0900 ∧
    ctrlword 0 false = Except.ok 0x0100 ∧
    groupidx 0x0900 = Except.ok 1 ∧
    groupidx 0x0100 = Except.ok 0 ∧
    (∀ g c : Int, (g = 0 ∨ g = 1) → ctrlword g false = Except.ok c →
      groupidx c = Except.ok g) ∧
    (∀ c : Int, c ≠ 0x0900 → c ≠ 0x0100 → ∃ e, groupidx c = Except.error e) ∧
    (∀ g : Int, ¬ (g = 0 ∨ g = 1) →
      ∃ e, ∀ rc, ctrlword g rc = Except.error e) := by
  refine ⟨rfl, rfl, rfl, rfl, ?_, ?_, ?_⟩
  · intro g c hg hc
    rcases hg with h | h <;> subst h
    · rw [show ctrlword 0 false = Except.ok 0x0100 from rfl] at hc
      cases hc
      rfl
    · rw [show ctrlword 1 false = Except.ok 0x0900 from rfl] at hc
      cases hc
      rfl
  · intro c h9 h1
    exact ⟨"ctrlword " ++ toString c ++ " does not select a group",
      by simp [groupidx, h9, h1]⟩
  · intro g hg
    have h : ¬ (0 ≤ g ∧ g < AOUT_GROUP_PER_MODULE) := by
      simp only [AOUT_GROUP_PER_MODULE]
      omega
    exact ⟨"invalid a-out group index " ++ toString g,
      fun rc => by simp [ctrlword, h]⟩

/-- Witness for C8 at concrete inputs. -/
theorem c8_roundtrip_witness :
    groupidx 0x0900 = Except.ok 1 ∧
    (∃ e, groupidx 5 = Except.error e) ∧
    (∃ e, ∀ r, ctrlword 7 r = Except.error e) :=
  ⟨c8_roundtrip.2.2.2.2.1 1 0x0900 (Or.inr rfl) rfl,
   c8_roundtrip.2.2.2.2.2.1 5 (by decide) (by decide),
   c8_roundtrip.2.2.2.2.2.2 7 (by decide)⟩

/-- C10: for a non-zero fault code all of whose set bits lie outside the
known bit set {0x01, 0x02, 0x04, 0x10, 0x40, 0x80}, `error_str` returns
the empty list (neither `['ok']` nor any fault name), so the at-least-one
element guarantee of its docstring does not extend to unknown bits. -/
theorem c10_unknown_bits :
    ∀ c : Int, c ≠ 0 →
      Int.land c 0x01 = 0 → Int.land c 0x02 = 0 →
      Int.land c 0x04 = 0 → Int.land c 0x10 = 0 →
      Int.land c 0x40 = 0 → Int.land c 0x80 = 0 →
      error_str (some c) = [] := by
  intro c h0 h1 h2 h4 h10 h40 h80
  simp [error_str, ERROR_MSG, h0, h1, h2, h4, h10, h40, h80]

/-- Witness for C10 at the concrete unknown-bit codes 0x08 and 0x20. -/
theorem c10_unknown_bits_witness :
    error_str (some 0x08) = [] ∧ error_str (some 0x20) = [] :=
  ⟨c10_unknown_bits 0x08 (by decide) (by decide) (by decide) (by decide)
      (by decide) (by decide) (by decide),
   c10_unknown_bits 0x20 (by decide) (by decide) (by decide) (by decide)
      (by decide) (by decide) (by decide)⟩

/-- C1 (code-bug evaluation): on a channel that is currently On with
stored setpoint 1000 and zero offset 0, `switch_channel_off 0` marks the
channel Off, but the group write it performs carries the stored
setpoint 1000 for channel 0 — not the zero offset — because the write is
issued before `channel_on` is cleared. -/
theorem c1_switch_off_eval :
    (let s : MM := { mm0 with
        channel_on := upd mm0.channel_on 0 (some true),
        Iref := upd mm0.Iref 0 (some 1000) }
     let r := s.switch_channel_off 0
     r.2.2 = none ∧
     r.1.channel_on 0 = some false ∧
     r.2.1 = [HwOp.regs [576, 5, 256, 1000, 0, 0, 0]] ∧
     s.Izero 0 = some 0 ∧ (1000 : Int) ≠ 0) :=
  ⟨rfl, rfl, rfl, rfl, by decide⟩

/-- C3 (counterexample): with the driver-wide powered flag known false
but channel 0 cached On, `is_channel_on` returns Off, not the cached On
value — the powered check precedes the cache lookup. -/
theorem c3_cached_on_cex :
    (let s : MM := { mm0 with
        st_on := some false,
        channel_on := upd mm0.channel_on 0 (some true) }
     (s.is_channel_on 0).2 = some false ∧
     s.channel_on 0 = some true ∧
     (some false : Option Bool) ≠ some true) :=
  ⟨rfl, rfl, by decide⟩

/-- C3 (amended): whenever a cached state exists, `is_channel_on`
returns it only if the driver-wide powered flag is truthy; when that
flag is not truthy the cached value is ignored and Off is returned. -/
theorem c3_cached_state :
    ∀ (s : MM) (ch : Nat) (b : Bool), s.channel_on ch = some b →
      (s.is_channel_on ch).2 =
        some (if s.st_on = some true then b else false) := by
  intro s ch b hb
  unfold MM.is_channel_on
  by_cases h : s.st_on = some true
  · simp [h, hb]
  · simp [h]

/-- Witness for C3 (amended) at a concrete powered state with a cached
On channel. -/
theorem c3_cached_state_witness :
    (({ mm0 with
        st_on := some true,
        channel_on := upd mm0.channel_on 0 (some true) } : MM).is_channel_on 0).2 =
      some (if ({ mm0 with
        st_on := some true,
        channel_on := upd mm0.channel_on 0 (some true) } : MM).st_on = some true
        then true else false) :=
  c3_cached_state _ 0 true rfl

/-- C4 (code-bug evaluation): in the second output group (channels
4..7), with channel 5 commanded On but holding a null setpoint, the
group write for channel 4 raises the incomplete-group error naming
"channel 1" (the local enumerate index 1), not the actually missing
channel 5. -/
theorem c4_missing_names_eval :
    (let s : MM := { mm0 with channel_on := upd mm0.channel_on 5 (some true) }
     (s.writeOut 4).2.2 =
        some "can not write channel 4, missing setpoints for channel 1" ∧
     "channel 1" ≠ "channel 5") :=
  ⟨rfl, by decide⟩

/-- C9: `switch_channel_on` is not atomic on failure: when the supply
is powered and ready, the channel index is valid, its setpoint is null
and the group write raises, `channel_on` is left unchanged (never
marked On) while the null setpoint has already been replaced by the
channel's zero offset. -/
theorem c9_switch_on_not_atomic :
    ∀ (s : MM) (i : Nat) (e : String),
      i < CHANNEL_NUM →
      s.st_on = some true → s.st_ready = some true → s.Iref i = none →
      (s.switch_channel_on i false).2.2 = some e →
      (s.switch_channel_on i false).1.channel_on = s.channel_on ∧
      (s.switch_channel_on i false).1.Iref i = s.Izero i := by
  intro s i e _hi hon hready hnull herr
  unfold MM.switch_channel_on at herr ⊢
  simp only [hon, hready, hnull, ne_eq, not_true_eq_false, if_false,
    Bool.false_eq_true, reduceIte] at herr ⊢
  split at herr
  case _ s3 log2 e2 heq =>
    have hIref := writeOut_Iref heq
    have hchan := writeOut_channel_on heq
    dsimp only at hIref hchan ⊢
    refine ⟨hchan, ?_⟩
    rw [hIref]
    simp [upd]
  case _ s3 log2 heq =>
    simp at herr

/-- Witness for C9: a concrete state where the supply is powered and
ready, channel 0 has no setpoint, and channel 1's zero offset is null so
the group write fails. -/
theorem c9_switch_on_not_atomic_witness :
    (let s : MM := { mm0 with
        st_on := some true,
        st_ready := some true,
        Izero := upd mm0.Izero 1 none }
     (s.switch_channel_on 0 false).1.channel_on = s.channel_on ∧
     (s.switch_channel_on 0 false).1.Iref 0 = s.Izero 0) :=
  c9_switch_on_not_atomic _ 0
    "can not write channel 0, missing setpoints for channel 1"
    (by decide) rfl rfl rfl rfl

/-- C2: when every zero offset is set, `poweroff` succeeds, leaves every
channel's on-state Unknown, and its hardware-write sequence consists of
the three group writes carrying the channels' zero offsets followed —
strictly after all of them — by the master-power coil drop. -/
theorem c2_poweroff_order :
    ∀ s : MM, (∀ ch, ch < CHANNEL_NUM → ∃ z, s.Izero ch = some z) →
      (s.poweroff.2.2 = none ∧
       (∀ i, s.poweroff.1.channel_on i = none) ∧
       s.poweroff.2.1 =
        [HwOp.regs [576, 5, 256, (s.Izero 0).getD 0, (s.Izero 1).getD 0,
            (s.Izero 2).getD 0, (s.Izero 3).getD 0],
         HwOp.regs [576, 5, 2304, (s.Izero 4).getD 0, (s.Izero 5).getD 0,
            (s.Izero 6).getD 0, (s.Izero 7).getD 0],
         HwOp.regs [581, 5, 256, (s.Izero 8).getD 0, (s.Izero 9).getD 0,
            (s.Izero 10).getD 0, (s.Izero 11).getD 0],
         HwOp.coils [0, 1, 0]]) := by
  intro s hz
  obtain ⟨z0, h0⟩ := hz 0 (by decide)
  obtain ⟨z1, h1⟩ := hz 1 (by decide)
  obtain ⟨z2, h2⟩ := hz 2 (by decide)
  obtain ⟨z3, h3⟩ := hz 3 (by decide)
  obtain ⟨z4, h4⟩ := hz 4 (by decide)
  obtain ⟨z5, h5⟩ := hz 5 (by decide)
  obtain ⟨z6, h6⟩ := hz 6 (by decide)
  obtain ⟨z7, h7⟩ := hz 7 (by decide)
  obtain ⟨z8, h8⟩ := hz 8 (by decide)
  obtain ⟨z9, h9⟩ := hz 9 (by decide)
  obtain ⟨z10, h10⟩ := hz 10 (by decide)
  obtain ⟨z11, h11⟩ := hz 11 (by decide)
  refine ⟨?_, ?_, ?_⟩ <;>
    simp [MM.poweroff, MM.write_all, MM.writeOut, MM.power, upd,
      AOUT_GROUP_CODE, CHANNEL_NUM, AOUT_PER_MODULE, AOUT_PER_GROUP,
      AOUT_MODULE_SIZE, AOUT_WRITE_BASE, COIL_OUT,
      h0, h1, h2, h3, h4, h5, h6, h7, h8, h9, h10, h11]

/-- Witness for C2 at the initial state, whose zero offsets are all 0. -/
theorem c2_poweroff_order_witness :
    mm0.poweroff.2.2 = none ∧
    (∀ i, mm0.poweroff.1.channel_on i = none) ∧
    mm0.poweroff.2.1 =
      [HwOp.regs [576, 5, 256, (mm0.Izero 0).getD 0, (mm0.Izero 1).getD 0,
          (mm0.Izero 2).getD 0, (mm0.Izero 3).getD 0],
       HwOp.regs [576, 5, 2304, (mm0.Izero 4).getD 0, (mm0.Izero 5).getD 0,
          (mm0.Izero 6).getD 0, (mm0.Izero 7).getD 0],
       HwOp.regs [581, 5, 256, (mm0.Izero 8).getD 0, (mm0.Izero 9).getD 0,
          (mm0.Izero 10).getD 0, (mm0.Izero 11).getD 0],
       HwOp.coils [0, 1, 0]] :=
  c2_poweroff_order mm0 (fun _ _ => ⟨0, rfl⟩)

/-- Storing an in-range (or null-respecting) value preserves the
setpoint range invariant. -/
theorem Iref_in_range_upd {s : MM} (hs : Iref_in_range s) {i : Nat}
    {w : Option Int}
    (hw : ∀ v, w = some v → AOUT_MIN_VALUE ≤ v ∧ v ≤ AOUT_MAX_VALUE) :
    Iref_in_range { s with Iref := upd s.Iref i w } := by
  intro j v hv
  by_cases hj : j = i
  · subst hj
    simp only [upd, if_pos rfl] at hv
    exact hw v hv
  · simp only [upd, if_neg hj] at hv
    exact hs j v hv

/-- `switch_channel_off` never touches the setpoints. -/
theorem switch_off_Iref {s : MM} {i : Nat} {r : MM × List HwOp × Option String}
    (h : s.switch_channel_off i = r) : r.1.Iref = s.Iref := by
  subst h
  unfold MM.switch_channel_off
  split
  · next s1 log e heq =>
    have h2 := writeOut_Iref heq
    exact h2
  · next s1 log heq =>
    have h2 := writeOut_Iref heq
    exact h2

/-- `_write_all` never touches the setpoints. -/
theorem write_all_Iref {s : MM} {r : MM × List HwOp × Option String}
    (h : s.write_all = r) : r.1.Iref = s.Iref := by
  subst h
  unfold MM.write_all
  split
  · next s1 l1 e heq =>
    have h2 := writeOut_Iref heq
    exact h2
  · next s1 l1 heq =>
    have a1 := writeOut_Iref heq
    split
    · next s2 l2 e heq2 =>
      have a2 := writeOut_Iref heq2
      exact a2.trans a1
    · next s2 l2 heq2 =>
      have a2 := writeOut_Iref heq2
      have a3 := writeOut_Iref (rfl :
        s2.writeOut 8 = s2.writeOut 8)
      exact (a3.trans a2).trans a1

/-- `poweroff` never touches the setpoints. -/
theorem poweroff_Iref {s : MM} {r : MM × List HwOp × Option String}
    (h : s.poweroff = r) : r.1.Iref = s.Iref := by
  subst h
  simp only [MM.poweroff]
  split
  · next s2 l e heq =>
    have h2 := write_all_Iref heq
    exact h2
  · next s2 l heq =>
    have h2 := write_all_Iref heq
    exact h2

/-- `configure` never touches the setpoints. -/
theorem configure_Iref {s : MM} {r1 r2 : List Int}
    {r : MM × List HwOp × Option String}
    (h : s.configure r1 r2 = r) : r.1.Iref = s.Iref := by
  subst h
  simp only [MM.configure]
  split
  · rfl
  · split
    · rfl
    · rfl

/-- `update` never touches the setpoints. -/
theorem update_Iref {s : MM} {oracle : List (List Int)} {r1 r2 dr : List Int}
    {r : MM × List HwOp × Option String} (h : s.update oracle r1 r2 dr = r) :
    r.1.Iref = s.Iref := by
  subst h
  simp only [MM.update]
  split
  · split
    · next s1 l e heq =>
      have h2 := configure_Iref heq
      exact h2
    · next s1 l heq =>
      have h2 := configure_Iref heq
      exact h2
  · split
    · rfl
    · rfl

/-- C5 (counterexample): `switch_channel_on` copies the caller-supplied
zero offset into a null setpoint without any range check, so starting
from a state satisfying the setpoint range invariant but holding
`Izero[0] = 40000`, a single `switch_channel_on 0` breaks the
invariant. -/
theorem c5_invariant_cex :
    (let s : MM := { mm0 with
        st_on := some true,
        st_ready := some true,
        Izero := upd mm0.Izero 0 (some 40000) }
     Iref_in_range s ∧ ¬ Iref_in_range (s.switch_channel_on 0 false).1) := by
  constructor
  · intro i v hv
    simp [mm0] at hv
  · intro hInv
    have h := hInv 0 40000 rfl
    have hc : ¬ ((40000 : Int) ≤ AOUT_MAX_VALUE) := by
      norm_num [AOUT_MAX_VALUE]
    exact hc h.2

/-- C5 (amended): the setpoint range invariant is preserved by
`set_Iref`, `switch_channel_off`, `poweroff`, `configure` and `update`
unconditionally, and by `switch_channel_on` whenever the caller-supplied
zero offsets are themselves in range (the counterexample shows the
unconditional claim fails for `switch_channel_on`); `set_Iref` rejects
-32513 and +32513 without storing anything and accepts -32512 and
+32512. -/
theorem c5_invariant :
    (∀ s i v, Iref_in_range s → Iref_in_range (s.set_Iref i v).1) ∧
    (∀ s i, Iref_in_range s → Iref_in_range (s.switch_channel_off i).1) ∧
    (∀ s, Iref_in_range s → Iref_in_range s.poweroff.1) ∧
    (∀ s r1 r2, Iref_in_range s → Iref_in_range (s.configure r1 r2).1) ∧
    (∀ s oracle r1 r2 dr, Iref_in_range s →
      Iref_in_range (s.update oracle r1 r2 dr).1) ∧
    (∀ s i f, Iref_in_range s → Izero_in_range s →
      Iref_in_range (s.switch_channel_on i f).1) ∧
    (∀ (s : MM) (i : Nat), s.set_Iref i (-32513) =
        (s, [], some "current setpoint out of allowed range") ∧
      s.set_Iref i 32513 =
        (s, [], some "current setpoint out of allowed range")) ∧
    (∀ (s : MM) (i : Nat), (s.set_Iref i (-32512)).1.Iref i = some (-32512) ∧
      (s.set_Iref i 32512).1.Iref i = some 32512) := by
  refine ⟨?_, ?_, ?_, ?_, ?_, ?_, ?_, ?_⟩
  · intro s i v hs
    by_cases hr : AOUT_MIN_VALUE ≤ v ∧ v ≤ AOUT_MAX_VALUE
    · have hupd : Iref_in_range { s with Iref := upd s.Iref i (some v) } :=
        Iref_in_range_upd hs (fun w hw => by cases hw; exact hr)
      simp only [MM.set_Iref]
      rw [if_neg (not_not_intro hr)]
      split
      · exact Iref_in_range_of_eq (writeOut_Iref rfl) hupd
      · exact hupd
    · simp only [MM.set_Iref]
      rw [if_pos hr]
      exact hs
  · intro s i hs
    exact Iref_in_range_of_eq (switch_off_Iref rfl) hs
  · intro s hs
    exact Iref_in_range_of_eq (poweroff_Iref rfl) hs
  · intro s r1 r2 hs
    exact Iref_in_range_of_eq (configure_Iref rfl) hs
  · intro s oracle r1 r2 dr hs
    exact Iref_in_range_of_eq (update_Iref rfl) hs
  · intro s i f hs hz
    have hpre : Iref_in_range
        (if s.Iref i = none then
          { s with Iref := upd s.Iref i (s.Izero i) } else s) := by
      split
      · exact Iref_in_range_upd hs (fun v hv => hz i v hv)
      · exact hs
    simp only [MM.switch_channel_on]
    split
    · next s1 log1 e heq =>
      have h1 := congrArg Prod.fst heq
      simp only [MM.poweron, MM.power,
        apply_ite (Prod.fst : MM × List HwOp × Option String → MM),
        ite_self] at h1
      exact Iref_in_range_of_eq (by rw [← h1]) hs
    · next s1 log1 heq =>
      have h1 := congrArg Prod.fst heq
      simp only [MM.poweron, MM.power,
        apply_ite (Prod.fst : MM × List HwOp × Option String → MM),
        ite_self] at h1
      subst h1
      split
      · next s3 log2 e heq2 =>
        have h2 := writeOut_Iref heq2
        exact Iref_in_range_of_eq h2 hpre
      · next s3 log2 heq2 =>
        have h2 := writeOut_Iref heq2
        exact Iref_in_range_of_eq h2 hpre
  · intro s i
    constructor
    · simp only [MM.set_Iref]
      rw [if_pos (by norm_num [AOUT_MIN_VALUE, AOUT_MAX_VALUE])]
    · simp only [MM.set_Iref]
      rw [if_pos (by norm_num [AOUT_MIN_VALUE, AOUT_MAX_VALUE])]
  · intro s i
    constructor
    · simp only [MM.set_Iref]
      rw [if_neg (by norm_num [AOUT_MIN_VALUE, AOUT_MAX_VALUE])]
      split
      · rw [writeOut_Iref rfl]
        simp [upd]
      · simp [upd]
    · simp only [MM.set_Iref]
      rw [if_neg (by norm_num [AOUT_MIN_VALUE, AOUT_MAX_VALUE])]
      split
      · rw [writeOut_Iref rfl]
        simp [upd]
      · simp [upd]

/-- Witness for C5 at concrete states: a stored in-range setpoint keeps
the invariant, a forced switch-on from the initial state keeps it, an
out-of-range setpoint is rejected verbatim, and the boundary +32512 is
stored. -/
theorem c5_invariant_witness :
    Iref_in_range (mm0.set_Iref 3 100).1 ∧
    Iref_in_range (mm0.switch_channel_on 0 true).1 ∧
    mm0.set_Iref 3 (-32513) =
      (mm0, [], some "current setpoint out of allowed range") ∧
    (mm0.set_Iref 3 32512).1.Iref 3 = some 32512 :=
  ⟨c5_invariant.1 mm0 3 100 (fun i v hv => by simp [mm0] at hv),
   c5_invariant.2.2.2.2.2.1 mm0 0 true
     (fun i v hv => by simp [mm0] at hv)
     (fun i v hv => by
       simp [mm0] at hv
       subst hv
       norm_num [AOUT_MIN_VALUE, AOUT_MAX_VALUE]),
   (c5_invariant.2.2.2.2.2.2.1 mm0 3).1,
   (c5_invariant.2.2.2.2.2.2.2 mm0 3).2⟩

set_option maxHeartbeats 1600000 in
/-- C6: scanning column 3 against a trace whose first column-3 read
still shows the previous selector (with no fault bit) and whose second
read matches: `read_AIN` writes the selector word 0x300 (= 3 × 0x100)
to all three input modules in one burst (its fourth selector write),
repeats the block read until every status word equals 0x300 (one
repeated read here), and stores the three measurement words at the
fixed interleaved positions 3, 11 and 19 of the flat 24-slot result
array. -/
theorem c6_scan_column3 :
    ∀ m0 m1 m2 : Int,
      (let oracle : List (List Int) :=
        [[0, 0, 0, 0, 0, 0],
         [0x100, 0, 0x100, 0, 0x100, 0],
         [0x200, 0, 0x200, 0, 0x200, 0],
         [0x200, 9, 0x200, 9, 0x200, 9],
         [0x300, m0, 0x300, m1, 0x300, m2],
         [0x400, 0, 0x400, 0, 0x400, 0],
         [0x500, 0, 0x500, 0, 0x500, 0],
         [0x600, 0, 0x600, 0, 0x600, 0],
         [0x700, 0, 0x700, 0, 0x700, 0]]
       let r := mm0.read_AIN oracle
       r.writes.getD 3 (HwOp.coils []) =
          HwOp.regs [586, 6, 768, 0, 768, 0, 768, 0] ∧
       r.aiva.getD 3 none = some m0 ∧
       r.aiva.getD 11 none = some m1 ∧
       r.aiva.getD 19 none = some m2 ∧
       r.aiva.length = 24 ∧
       r.repeats = 1 ∧
       r.done = false ∧ r.blocked = false ∧ r.need_config = false) := by
  intro m0 m1 m2
  simp +decide [MM.read_AIN, scanColumn, pollLoop, statusOf, measOf, everyNth,
    everyNthAux, setSlice3, mm0, AIN_MODULE_SIZE, AIN_PER_MODULE_NUM,
    AIN_MODULE_NUM, AIN_TOTAL_NUM, AIN_TOTAL_SIZE, AIN_WRITE_BASE, MASK_ERROR,
    List.range_succ]

end Modmux
